import Mathlib

/-!
Verification development for the SeoAgnoAnalyzer repository.

This file gives a shallow embedding, in Lean 4, of the feature-extraction and
orchestration code of the repository (the HTML/SEO extractor, the performance
extractor with its three-stage waterfall and merge, the UI/UX extractor, and
the unified workflow predicates), and proves properties of that embedding.

Python runtime values are modelled by the inductive type `PyVal`; Python
dictionaries are association lists of string keys, with `dict.update`,
`dict.get` and item assignment modelled by `dictUpdate`, `pyGet` and
`dictSet`, preserving Python insertion-order semantics (assignment to an
existing key replaces in place, a new key is appended).  External effects
(HTTP responses, the filesystem, browser automation, clock readings) are
passed in as explicit outcome values.

The file is organised as: definitions (the embedding), then theorems.
-/

set_option maxHeartbeats 1000000
set_option maxRecDepth 100000

namespace SeoAgno

/-- Model of a Python runtime value, as used by the dictionaries that flow
through the extractors: `None`, booleans, ints, floats (modelled as exact
rationals), strings, lists and string-keyed dicts. -/
inductive PyVal where
  | pnone
  | pbool (b : Bool)
  | pint (n : Int)
  | pfloat (q : Rat)
  | pstr (s : String)
  | plist (xs : List PyVal)
  | pdict (kvs : List (String × PyVal))

/-- Python truthiness (`bool(v)`): `None`, `False`, zero, the empty string,
the empty list and the empty dict are falsy. -/
def PyVal.truthy : PyVal → Bool
  | .pnone => false
  | .pbool b => b
  | .pint n => decide (n ≠ 0)
  | .pfloat q => decide (q ≠ 0)
  | .pstr s => decide (s ≠ "")
  | .plist xs => !xs.isEmpty
  | .pdict kvs => !kvs.isEmpty

/-- `v is None` (identity with the `None` singleton). -/
def PyVal.isNone : PyVal → Bool
  | .pnone => true
  | _ => false

/-- A Python dict with string keys, in insertion order. -/
abbrev PDict := List (String × PyVal)

/-- Key lookup in a dict (first, i.e. unique, binding). -/
def dictLookup : PDict → String → Option PyVal
  | [], _ => none
  | (k, v) :: rest, key => if k = key then some v else dictLookup rest key

/-- `d.get(key)`: the stored value, or `None` when the key is absent. -/
def pyGet (d : PDict) (key : String) : PyVal :=
  (dictLookup d key).getD .pnone

/-- `key in d`. -/
def dictHasKey (d : PDict) (key : String) : Bool :=
  (dictLookup d key).isSome

/-- Item assignment `d[key] = v`: replaces the binding in place when the key
exists, appends it otherwise (Python insertion-order semantics). -/
def dictSet : PDict → String → PyVal → PDict
  | [], key, v => [(key, v)]
  | (k, w) :: rest, key, v =>
    if k = key then (k, v) :: rest else (k, w) :: dictSet rest key v

/-- `d1.update(d2)`: assign every binding of `d2` into `d1`, in order. -/
def dictUpdate (d1 d2 : PDict) : PDict :=
  d2.foldl (fun acc kv => dictSet acc kv.1 kv.2) d1

/-- The value the assignments of `d` leave at `key` (the last binding), used
to describe `dictUpdate`. -/
def dictLookupLast : PDict → String → Option PyVal
  | [], _ => none
  | kv :: rest, key =>
    (dictLookupLast rest key).orElse
      (fun _ => if kv.1 = key then some kv.2 else none)

/-- Stage-3 fill of `analyze_performance`: `for key, value in s3.items(): if
combined.get(key) is None: combined[key] = value`. -/
def fillMissing (combined s3 : PDict) : PDict :=
  s3.foldl
    (fun acc kv => if (pyGet acc kv.1).isNone then dictSet acc kv.1 kv.2 else acc)
    combined

/-- Stage-1-then-stage-2 combination of `analyze_performance`:
`combined = {}; combined.update(s1); combined.update(s2)`. -/
def combineStage12 (s1 s2 : PDict) : PDict :=
  dictUpdate (dictUpdate [] s1) s2

/- ### Python string helpers (list-of-codepoint based, as in CPython `str`) -/

/-- Python `s.startswith(pre)`. -/
def pyStartsWith (s pre : String) : Bool :=
  pre.data.isPrefixOf s.data

/-- Python `s.endswith(sfx)`. -/
def pyEndsWith (s sfx : String) : Bool :=
  sfx.data.isSuffixOf s.data

/-- Helper for Python `sub in s`: does `nd` occur as a contiguous run of
`hs`? -/
def subOccursIn (nd : List Char) : List Char → Bool
  | [] => nd.isEmpty
  | c :: rest => nd.isPrefixOf (c :: rest) || subOccursIn nd rest

/-- Python `sub in s` (substring containment). -/
def containsSub (s sub : String) : Bool :=
  subOccursIn sub.data s.data

/-- ASCII lowercasing, as applied by Python `str.lower()` to the
ASCII header/content-type strings handled by the extractors. -/
def lowerAscii (s : String) : String :=
  String.mk (s.data.map fun c =>
    if ('A' ≤ c ∧ c ≤ 'Z') then Char.ofNat (c.toNat + 32) else c)

/-- Python whitespace characters recognised by `str.strip()` (ASCII part). -/
def pyIsSpace (c : Char) : Bool :=
  c = ' ' || c = '\t' || c = '\n' || c = '\r' || c = '\x0b' || c = '\x0c'

/-- Python `s.strip()`. -/
def pyStrip (s : String) : String :=
  String.mk (((s.data.dropWhile pyIsSpace).reverse.dropWhile pyIsSpace).reverse)

/-- Python slice `s[:n]` (by code point). -/
def pySliceTo (s : String) (n : Nat) : String :=
  String.mk (s.data.take n)

/- ### Unified workflow predicates (src/workflows/unified_workflow.py)

The raw workflow input is a Python value: a string, or a dict with keys
among `url`, `html`, `screenshot`, `screenshots`. -/

/-- `_check_is_url(input_data)`: a dict whose `url` value is a string with an
`http://`/`https://` prefix, or a string with such a prefix. -/
def checkIsUrl : PyVal → Bool
  | .pdict d =>
    match dictLookup d "url" with
    | some (.pstr url) => pyStartsWith url "http://" || pyStartsWith url "https://"
    | _ => false
  | .pstr s => pyStartsWith s "http://" || pyStartsWith s "https://"
  | _ => false

/-- `_check_has_url_or_html(input_data)`: a dict with a `url` or `html` key,
or any string. -/
def checkHasUrlOrHtml : PyVal → Bool
  | .pdict d => dictHasKey d "url" || dictHasKey d "html"
  | .pstr _ => true
  | _ => false

/-- `_check_has_screenshot(input_data)`: a dict with a `screenshot` or
`screenshots` key. -/
def checkHasScreenshot : PyVal → Bool
  | .pdict d => dictHasKey d "screenshot" || dictHasKey d "screenshots"
  | _ => false

/-- `needs_uiux_analysis`: URL input or screenshot(s) provided. -/
def needsUiuxAnalysis (v : PyVal) : Bool :=
  checkIsUrl v || checkHasScreenshot v

/-- Outcome of the external classifier-agent call made by
`classify_input_step` (an excluded collaborator): either its response
content, or a raised exception message. -/
inductive ClassifierOutcome where
  | ok (content : PyVal)
  | error (msg : String)

/-- The default classification dict built by `classify_input_step` in its
`except` block. `inputStr` stands for `str(step_input.input)`. -/
def classifyDefault (inputStr errMsg : String) : PDict :=
  [("type", .pstr "unknown"),
   ("confidence", .pstr "low"),
   ("reasoning", .pstr ("Classification failed: " ++ errMsg)),
   ("normalized_input", .pstr inputStr)]

/-- `classify_input_step`: returns the classifier response on success and the
default classification on any exception.  The Python stringification
`str(step_input.input)` is passed in as `inputStr` (pure formatting at the
I/O boundary). -/
def classifyInputStep (inputStr : String) (o : ClassifierOutcome) : PyVal :=
  match o with
  | .ok content => content
  | .error msg => .pdict (classifyDefault inputStr msg)

/-- The three `Condition` blocks of `unified_workflow`, in source order, with
their evaluators (`has_url_or_html`, `is_url_input`, `needs_uiux_analysis`).
Per agno `Condition` semantics — which the repository documents itself
("This step should only run when a URL is provided (enforced by Condition)";
`analyze()`: "HTML string: Runs SEO only") — a condition whose evaluator
returns false does not run its steps, so the skipped branch contributes no
step output to the run. -/
def workflowConditions : List (String × (PyVal → Bool)) :=
  [("SEO Analysis Condition", checkHasUrlOrHtml),
   ("Performance Analysis Condition", checkIsUrl),
   ("UI/UX Analysis Condition", needsUiuxAnalysis)]

/-- Names of the conditional branches whose steps actually execute for a
given raw input, in the fixed source order. -/
def executedBranches (inp : PyVal) : List String :=
  (workflowConditions.filter (fun b => b.2 inp)).map Prod.fst

/- ### HTML/SEO extractor (src/extractors/html_extractor.py) -/

/-- The additive part of `extract_content_depth`: the sequence of
`score += ...` increments, in source order, before the final
`min(score, 100)` clamp.  `average_paragraph_length` is the (already
rounded) float stored in the feature set; the alt-text ratio is computed as
`images_with_alt / max(total_images, 1)` in float (exact rational)
arithmetic. -/
def contentDepthScoreRaw (word_count paragraph_count : Nat)
    (average_paragraph_length : Rat) (has_lists has_tables : Bool)
    (h1_count h2_count h3_count total_images images_with_alt : Nat) : Int :=
  (if word_count ≥ 2000 then 30
   else if word_count ≥ 1000 then 20
   else if word_count ≥ 500 then 10
   else if word_count ≥ 300 then 5 else 0)
  + (if paragraph_count ≥ 10 then 10 else if paragraph_count ≥ 5 then 5 else 0)
  + (if average_paragraph_length ≥ 30 then 10
     else if average_paragraph_length ≥ 15 then 5 else 0)
  + (if has_lists then 10 else 0)
  + (if has_tables then 10 else 0)
  + (if h1_count = 1 then 5 else 0)
  + (if h2_count ≥ 3 then 5 else 0)
  + (if h3_count ≥ 2 then 5 else 0)
  + (if total_images ≥ 5 then 10 else if total_images ≥ 2 then 5 else 0)
  + (if images_with_alt > 0 ∧
        (images_with_alt : Rat) / ((max total_images 1 : Nat) : Rat) ≥ 8 / 10
     then 5 else 0)

/-- `content_depth_score` as stored by `extract_content_depth`:
`min(score, 100)`. -/
def content_depth_score (word_count paragraph_count : Nat)
    (average_paragraph_length : Rat) (has_lists has_tables : Bool)
    (h1_count h2_count h3_count total_images images_with_alt : Nat) : Int :=
  min (contentDepthScoreRaw word_count paragraph_count
        average_paragraph_length has_lists has_tables
        h1_count h2_count h3_count total_images images_with_alt) 100

/-- The link counters produced by `extract_link_features`. -/
structure LinkCounts where
  internal_links : Nat
  external_links : Nat
  total_links : Nat

/-- `extract_link_features`: classify every `<a href=...>` value.  Anchors
(`#...`) and `javascript:` pseudo-links are skipped; otherwise the href is
resolved against the page URL (`urljoin`) and its host (`urlparse(...).netloc`)
is compared with the page host.  The URL-library functions `netloc` and
`urljoin` (Python `urllib.parse`, an external library) are passed in
explicitly; the classification and counting logic is the source's. -/
def extract_link_features (netloc : String → String)
    (urljoin : String → String → String) (url : String)
    (hrefs : List String) : LinkCounts :=
  let base_domain := netloc url
  let p := hrefs.foldl
    (fun (p : Nat × Nat) href =>
      if pyStartsWith href "#" || pyStartsWith href "javascript:" then p
      else
        let link_domain := netloc (urljoin url href)
        if link_domain = base_domain then (p.1 + 1, p.2)
        else if link_domain ≠ "" then (p.1, p.2 + 1)
        else p)
    (0, 0)
  { internal_links := p.1, external_links := p.2, total_links := p.1 + p.2 }

/-- An `<img>` element as seen by `extract_image_features`: `img.get('alt','')`
and `img.get('src','')` (an absent attribute reads as the empty string). -/
structure ImgTag where
  alt : String
  src : String

/-- The image counters produced by `extract_image_features`. -/
structure ImageFeatures where
  total_images : Nat
  images_with_alt : Nat
  images_without_alt : Nat
  missing_alt_images : List String

/-- Loop body of `extract_image_features`: an image counts as "with alt" iff
its alt text is truthy and truthy after stripping (`alt_text and
alt_text.strip()`); otherwise it is counted "without alt" and, when it has a
truthy `src`, the src is recorded truncated to 100 characters
(`src[:100]`). -/
def imageFeatureStep (f : ImageFeatures) (img : ImgTag) : ImageFeatures :=
  let alt_text := img.alt
  let src := img.src
  if alt_text ≠ "" ∧ pyStrip alt_text ≠ "" then
    { f with images_with_alt := f.images_with_alt + 1 }
  else
    let f := { f with images_without_alt := f.images_without_alt + 1 }
    if src ≠ "" then
      { f with missing_alt_images := f.missing_alt_images ++ [pySliceTo src 100] }
    else f

/-- `extract_image_features`: `total_images = len(images)`, then the loop
over all `<img>` elements. -/
def extract_image_features (images : List ImgTag) : ImageFeatures :=
  images.foldl imageFeatureStep
    { total_images := images.length, images_with_alt := 0,
      images_without_alt := 0, missing_alt_images := [] }

/- ### UI/UX extractor (src/extractors/uiux_extractor.py) -/

/-- An accessibility issue as appended by `_run_accessibility_audit`:
`{"type": ..., "severity": ..., "count": ..., "description": ...}`. -/
structure AccessibilityIssue where
  type : String
  severity : String
  count : Nat
  description : String

/-- `len([i for i in accessibility_issues if i["severity"] == sev])`, as an
integer. -/
def countSeverity (issues : List AccessibilityIssue) (sev : String) : Int :=
  ((issues.filter (fun i => i.severity = sev)).length : Int)

/-- The score computation at the end of `_run_accessibility_audit`:
`score = 100; score -= critical*15; score -= serious*10; score -= moderate*5;
score = max(0, score)`. -/
def accessibilityScoreOf (accessibility_issues : List AccessibilityIssue) : Int :=
  let critical_issues := countSeverity accessibility_issues "critical"
  let serious_issues := countSeverity accessibility_issues "serious"
  let moderate_issues := countSeverity accessibility_issues "moderate"
  let score : Int := 100
  let score := score - critical_issues * 15
  let score := score - serious_issues * 10
  let score := score - moderate_issues * 5
  max 0 score

/-- The standard base64 alphabet used by `base64.b64encode`. -/
def base64Alphabet : List Char :=
  "ABCDEFGHIJKLMNOPQRSTUVWXYZabcdefghijklmnopqrstuvwxyz0123456789+/".data

/-- Character of the base64 alphabet at a 6-bit index. -/
def base64Char (i : Nat) : Char :=
  base64Alphabet.getD i '='

/-- `base64.b64encode(bytes).decode('utf-8')`: groups of three bytes map to
four alphabet characters, with `=` padding for a trailing group of one or two
bytes. -/
def b64encode : List Nat → String
  | [] => ""
  | [b1] =>
    String.mk [base64Char (b1 / 4), base64Char (b1 % 4 * 16)] ++ "=="
  | [b1, b2] =>
    String.mk [base64Char (b1 / 4), base64Char (b1 % 4 * 16 + b2 / 16),
      base64Char (b2 % 16 * 4)] ++ "="
  | b1 :: b2 :: b3 :: rest =>
    String.mk [base64Char (b1 / 4), base64Char (b1 % 4 * 16 + b2 / 16),
      base64Char (b2 % 16 * 4 + b3 / 64), base64Char (b3 % 64)] ++ b64encode rest

/-- `_load_screenshot`: read the file at the path and base64-encode it, or
raise.  The filesystem is modelled by `fs : String → Option (List Nat)`;
`none` covers both a missing file (`FileNotFoundError`) and an unreadable one
(an `open`/`read` error) — both propagate to the caller as exceptions. -/
def loadScreenshot (fs : String → Option (List Nat))
    (screenshot_path : String) : Except String String :=
  match fs screenshot_path with
  | some image_bytes => .ok (b64encode image_bytes)
  | none => .error ("Screenshot not found: " ++ screenshot_path)

/-- Dict item assignment for string-valued dicts (same semantics as
`dictSet`). -/
def strDictSet : List (String × String) → String → String → List (String × String)
  | [], key, v => [(key, v)]
  | (k, w) :: rest, key, v =>
    if k = key then (k, v) :: rest else (k, w) :: strDictSet rest key v

/-- `_load_screenshots`: load every named viewport independently; a viewport
whose `_load_screenshot` raises is skipped (with a warning) and the loop
continues. -/
def loadScreenshots (fs : String → Option (List Nat))
    (screenshots_dict : List (String × String)) : List (String × String) :=
  screenshots_dict.foldl
    (fun loaded_screenshots e =>
      match loadScreenshot fs e.2 with
      | .ok screenshot_base64 => strDictSet loaded_screenshots e.1 screenshot_base64
      | .error _ => loaded_screenshots)
    []

/-- Example filesystem for the C8 scenario: exactly one readable file. -/
def exampleScreenshotFs : String → Option (List Nat) :=
  fun p => if p = "valid.png" then some [137, 80] else none

/- ### Performance extractor (src/extractors/performance_extractor.py)

The three analyzers mutate a `TechnicalPerformanceFeatures` dataclass and
serialise it with `_to_dict`.  Each analyzer's external call is modelled by
an outcome value; inside the PageSpeed parsing helpers, Python expressions
that can raise (`.get` on a non-dict — `AttributeError`; arithmetic on a
non-number — `TypeError`; iteration of a non-iterable) are modelled in
`Except`, and each helper's enclosing `try/except` keeps the mutations made
before the failure point, exactly as sequential Python assignment does. -/

/-- Python `v.get(key, dflt)`: succeeds on dicts, raises `AttributeError`
otherwise. -/
def pyDictGetD (v : PyVal) (key : String) (dflt : PyVal) : Except String PyVal :=
  match v with
  | .pdict d => .ok ((dictLookup d key).getD dflt)
  | _ => .error "AttributeError"

/-- Python `v.get(key)` (default `None`). -/
def pyDictGet (v : PyVal) (key : String) : Except String PyVal :=
  pyDictGetD v key .pnone

/-- Python string repetition `s * n`. -/
def strRepeat (s : String) (n : Int) : String :=
  (List.replicate n.toNat s).foldl (fun a b => a ++ b) ""

/-- Python list repetition `xs * n`. -/
def listRepeat (xs : List PyVal) (n : Int) : List PyVal :=
  (List.replicate n.toNat xs).foldl (fun a b => a ++ b) []

/-- Python `v * n` for an int `n`: numeric multiplication for numbers and
booleans, sequence repetition for strings and lists, `TypeError` otherwise
(e.g. `None * 100`). -/
def pyMulInt (v : PyVal) (n : Int) : Except String PyVal :=
  match v with
  | .pint m => .ok (.pint (m * n))
  | .pfloat q => .ok (.pfloat (q * (n : Rat)))
  | .pbool b => .ok (.pint ((cond b 1 0) * n))
  | .pstr s => .ok (.pstr (strRepeat s n))
  | .plist xs => .ok (.plist (listRepeat xs n))
  | _ => .error "TypeError"

/-- Truncation of a rational toward zero, as Python `int(float)`. -/
def ratTrunc (q : Rat) : Int :=
  if 0 ≤ q then q.floor else q.ceil

/-- Digit-string parsing for Python `int(str)`. -/
def digitsToNatAux : List Char → Nat → Option Nat
  | [], acc => some acc
  | c :: rest, acc =>
    if c.isDigit then digitsToNatAux rest (acc * 10 + (c.toNat - 48)) else none

/-- Digit-string parsing for Python `int(str)`: empty strings fail. -/
def digitsToNat : List Char → Option Nat
  | [] => none
  | cs => digitsToNatAux cs 0

/-- Python `int("...")`: optional surrounding whitespace, optional sign,
decimal digits. -/
def parseIntStr (s : String) : Option Int :=
  match (pyStrip s).data with
  | '-' :: rest => (digitsToNat rest).map (fun n => -(n : Int))
  | '+' :: rest => (digitsToNat rest).map (fun n => (n : Int))
  | l => (digitsToNat l).map (fun n => (n : Int))

/-- Python `int(v)`: ints, bools and floats (truncation toward zero) convert;
numeric strings parse; everything else raises. -/
def pyToInt (v : PyVal) : Except String Int :=
  match v with
  | .pint m => .ok m
  | .pbool b => .ok (cond b 1 0)
  | .pfloat q => .ok (ratTrunc q)
  | .pstr s =>
    match parseIntStr s with
    | some n => .ok n
    | none => .error "ValueError"
  | _ => .error "TypeError"

/-- Python `v < n` for an int `n`: defined on numbers and booleans,
`TypeError` otherwise. -/
def pyLtInt (v : PyVal) (n : Int) : Except String Bool :=
  match v with
  | .pint m => .ok (decide (m < n))
  | .pfloat q => .ok (decide (q < (n : Rat)))
  | .pbool b => .ok (decide ((cond b 1 0 : Int) < n))
  | _ => .error "TypeError"

/-- Python `v == n` for an int `n` (total, never raises). -/
def pyEqInt (v : PyVal) (n : Int) : Bool :=
  match v with
  | .pint m => decide (m = n)
  | .pfloat q => decide (q = (n : Rat))
  | .pbool b => decide ((cond b 1 0 : Int) = n)
  | _ => false

/-- Python iteration `for x in v`: lists yield elements, strings yield
one-character strings, dicts yield their keys; other values raise. -/
def pyIter (v : PyVal) : Except String (List PyVal) :=
  match v with
  | .plist xs => .ok xs
  | .pstr s => .ok (s.data.map (fun c => .pstr (String.mk [c])))
  | .pdict d => .ok (d.map (fun kv => .pstr kv.1))
  | _ => .error "TypeError"

/-- Python `len(v)`. -/
def pyLen (v : PyVal) : Except String Int :=
  match v with
  | .plist xs => .ok (xs.length : Int)
  | .pstr s => .ok (s.data.length : Int)
  | .pdict d => .ok (d.length : Int)
  | _ => .error "TypeError"

/-- One addition step of Python `sum(...)` (accumulator starts at int 0). -/
def pyAddNum (acc v : PyVal) : Except String PyVal :=
  match acc, v with
  | .pint a, .pint b => .ok (.pint (a + b))
  | .pint a, .pfloat b => .ok (.pfloat ((a : Rat) + b))
  | .pint a, .pbool b => .ok (.pint (a + cond b 1 0))
  | .pfloat a, .pint b => .ok (.pfloat (a + (b : Rat)))
  | .pfloat a, .pfloat b => .ok (.pfloat (a + b))
  | .pfloat a, .pbool b => .ok (.pfloat (a + cond b 1 0))
  | _, _ => .error "TypeError"

/-- Helper for Python `sum(...)`. -/
def pySumNumAux : List PyVal → PyVal → Except String PyVal
  | [], acc => .ok acc
  | x :: rest, acc =>
    match pyAddNum acc x with
    | .ok a => pySumNumAux rest a
    | .error e => .error e

/-- Python `sum(xs)` over numbers, starting from int 0. -/
def pySumNum (xs : List PyVal) : Except String PyVal :=
  pySumNumAux xs (.pint 0)

/-- Python attribute dispatch of a string method on a value that must be a
string (`url.endswith(...)` raises `AttributeError` on non-strings). -/
def pyStrAttr (v : PyVal) : Except String String :=
  match v with
  | .pstr s => .ok s
  | _ => .error "AttributeError"

/-- The `TechnicalPerformanceFeatures` dataclass with its field defaults.
Fields that receive values straight from parsed JSON without conversion
(`numericValue`, JS `performance` entries, `sum(...)` results) are `PyVal`;
fields the code converts or computes are given the tighter type of every
assignment in the source (`Option Int`, `Option String`, `Bool`, `Int`,
`Rat`).  `response_time` is a `PyVal` float (set by the header and local
stages).  The `*_category` fields are never assigned. -/
structure TechnicalPerformanceFeatures where
  url : String := ""
  analyzed_at : String := ""
  lcp_score : PyVal := .pnone
  lcp_value : PyVal := .pnone
  lcp_category : Option String := none
  fid_score : PyVal := .pnone
  fid_value : PyVal := .pnone
  fid_category : Option String := none
  cls_score : PyVal := .pnone
  cls_value : PyVal := .pnone
  cls_category : Option String := none
  fcp_score : PyVal := .pnone
  fcp_value : PyVal := .pnone
  fcp_category : Option String := none
  tti_score : PyVal := .pnone
  tti_value : PyVal := .pnone
  tti_category : Option String := none
  speed_index_score : PyVal := .pnone
  speed_index_value : PyVal := .pnone
  speed_index_category : Option String := none
  tbt_score : PyVal := .pnone
  tbt_value : PyVal := .pnone
  tbt_category : Option String := none
  performance_score : Option Int := none
  accessibility_score : Option Int := none
  best_practices_score : Option Int := none
  seo_score : Option Int := none
  total_page_size : PyVal := .pnone
  total_requests : Option Int := none
  html_size : Option Int := none
  css_size : Option Int := none
  js_size : Option Int := none
  image_size : Option Int := none
  font_size : Option Int := none
  other_size : Option Int := none
  html_requests : Int := 0
  css_requests : Int := 0
  js_requests : Int := 0
  image_requests : Int := 0
  font_requests : Int := 0
  other_requests : Int := 0
  uses_gzip_compression : Bool := false
  uses_brotli_compression : Bool := false
  has_cache_control : Bool := false
  cache_control_value : Option String := none
  has_etag : Bool := false
  has_expires : Bool := false
  expires_value : Option String := none
  has_hsts : Bool := false
  hsts_value : Option String := none
  has_csp : Bool := false
  csp_value : Option String := none
  has_x_frame_options : Bool := false
  x_frame_options_value : Option String := none
  has_x_content_type_options : Bool := false
  has_referrer_policy : Bool := false
  referrer_policy_value : Option String := none
  server_type : Option String := none
  response_time : PyVal := .pnone
  http_status_code : Option Int := none
  redirects_count : Int := 0
  uses_http2 : Bool := false
  uses_http3 : Bool := false
  render_blocking_css_count : Int := 0
  render_blocking_js_count : Int := 0
  render_blocking_resources : List PyVal := []
  unoptimized_images_count : Int := 0
  images_without_dimensions : Int := 0
  next_gen_images_opportunity : Bool := false
  unused_js_bytes : PyVal := .pnone
  total_js_execution_time : PyVal := .pnone
  main_thread_work_time : PyVal := .pnone
  unused_css_bytes : PyVal := .pnone
  font_display_set : Bool := false
  preconnect_to_required_origins : List PyVal := []
  third_party_requests : Int := 0
  third_party_size : PyVal := .pnone
  third_party_blocking_time : PyVal := .pnone
  opportunities : List PyVal := []
  diagnostics : List PyVal := []
  analysis_source : String := "unknown"
  api_error : Option String := none
  fallback_used : Bool := false

/-- Embed an optional int into a Python value. -/
def optIntVal : Option Int → PyVal
  | none => .pnone
  | some n => .pint n

/-- Embed an optional string into a Python value. -/
def optStrVal : Option String → PyVal
  | none => .pnone
  | some s => .pstr s

/-- The dict built by the `extract_metric` helper of
`_extract_core_web_vitals`: `(score, value, display_value)` from
`audits.get(audit_key, {})`. -/
def extractMetric (audits : PyVal) (audit_key : String) :
    Except String (PyVal × PyVal × PyVal) := do
  let audit ← pyDictGetD audits audit_key (.pdict [])
  let s ← pyDictGet audit "score"
  let v ← pyDictGet audit "numericValue"
  let dv ← pyDictGet audit "displayValue"
  return (s, v, dv)

/-- One metric of `_extract_core_web_vitals`:
`m["score"] * 100 if m["score"] is not None else None`, paired with
`m["value"]`. -/
def metricScoreValue (audits : PyVal) (audit_key : String) :
    Except String (PyVal × PyVal) := do
  let m ← extractMetric audits audit_key
  let s ← if m.1.isNone then pure PyVal.pnone else pyMulInt m.1 100
  return (s, m.2.1)

/-- One category of `_extract_lighthouse_metrics`:
`int(cat.get("score", 0) * 100) if cat.get("score") else None`. -/
def categoryScore (cat : PyVal) : Except String (Option Int) := do
  let c ← pyDictGet cat "score"
  if c.truthy then
    let x ← pyDictGetD cat "score" (.pint 0)
    let prod ← pyMulInt x 100
    let i ← pyToInt prod
    return (some i)
  else
    return none

/-- `_extract_lighthouse_metrics`: the four 0-1 category scores scaled to
0-100; any exception is caught by the method's `try/except`, keeping the
assignments already made. -/
def extractLighthouseMetrics (data : PyVal)
    (f : TechnicalPerformanceFeatures) : TechnicalPerformanceFeatures :=
  match pyDictGetD data "lighthouseResult" (.pdict []) with
  | .error _ => f
  | .ok lighthouse =>
  match pyDictGetD lighthouse "categories" (.pdict []) with
  | .error _ => f
  | .ok categories =>
  match pyDictGetD categories "performance" (.pdict []) with
  | .error _ => f
  | .ok perf =>
  match categoryScore perf with
  | .error _ => f
  | .ok v1 =>
  let f := { f with performance_score := v1 }
  match pyDictGetD categories "accessibility" (.pdict []) with
  | .error _ => f
  | .ok access =>
  match categoryScore access with
  | .error _ => f
  | .ok v2 =>
  let f := { f with accessibility_score := v2 }
  match pyDictGetD categories "best-practices" (.pdict []) with
  | .error _ => f
  | .ok bp =>
  match categoryScore bp with
  | .error _ => f
  | .ok v3 =>
  let f := { f with best_practices_score := v3 }
  match pyDictGetD categories "seo" (.pdict []) with
  | .error _ => f
  | .ok seo =>
  match categoryScore seo with
  | .error _ => f
  | .ok v4 =>
  { f with seo_score := v4 }

/-- `_extract_core_web_vitals`: LCP, CLS, FCP, TTI, Speed Index and TBT in
source order, then FID set from TBT (the documented proxy substitution);
exceptions keep the assignments already made. -/
def extractCoreWebVitals (data : PyVal)
    (f : TechnicalPerformanceFeatures) : TechnicalPerformanceFeatures :=
  match pyDictGetD data "lighthouseResult" (.pdict []) with
  | .error _ => f
  | .ok lighthouse =>
  match pyDictGetD lighthouse "audits" (.pdict []) with
  | .error _ => f
  | .ok audits =>
  match metricScoreValue audits "largest-contentful-paint" with
  | .error _ => f
  | .ok lcp =>
  let f := { f with lcp_score := lcp.1, lcp_value := lcp.2 }
  match metricScoreValue audits "cumulative-layout-shift" with
  | .error _ => f
  | .ok cls =>
  let f := { f with cls_score := cls.1, cls_value := cls.2 }
  match metricScoreValue audits "first-contentful-paint" with
  | .error _ => f
  | .ok fcp =>
  let f := { f with fcp_score := fcp.1, fcp_value := fcp.2 }
  match metricScoreValue audits "interactive" with
  | .error _ => f
  | .ok tti =>
  let f := { f with tti_score := tti.1, tti_value := tti.2 }
  match metricScoreValue audits "speed-index" with
  | .error _ => f
  | .ok si =>
  let f := { f with speed_index_score := si.1, speed_index_value := si.2 }
  match metricScoreValue audits "total-blocking-time" with
  | .error _ => f
  | .ok tbt =>
  let f := { f with tbt_score := tbt.1, tbt_value := tbt.2 }
  { f with fid_score := f.tbt_score, fid_value := f.tbt_value }

/-- The fixed audit keys scanned for opportunities. -/
def opportunityKeys : List String :=
  ["render-blocking-resources", "unused-css-rules", "unused-javascript",
   "modern-image-formats", "offscreen-images", "unminified-css",
   "unminified-javascript", "uses-optimized-images", "uses-text-compression",
   "uses-responsive-images"]

/-- One iteration of the opportunities loop: the dict appended when
`audit.get("score") is not None and audit["score"] < 1`. -/
def oppStep (audits : PyVal) (key : String) : Except String (Option PyVal) := do
  let audit ← pyDictGetD audits key (.pdict [])
  let s ← pyDictGet audit "score"
  if s.isNone then
    return none
  else
    let lt ← pyLtInt s 1
    if lt then
      let title ← pyDictGet audit "title"
      let desc ← pyDictGet audit "description"
      let sav ← pyDictGet audit "numericValue"
      let dv ← pyDictGet audit "displayValue"
      return (some (.pdict [("id", .pstr key), ("title", title),
        ("description", desc), ("score", s), ("savings_ms", sav),
        ("display_value", dv)]))
    else
      return none

/-- The opportunities loop over the fixed keys; an exception aborts the loop
(second component true) keeping the appends already made. -/
def oppLoop (audits : PyVal) :
    List String → TechnicalPerformanceFeatures →
      TechnicalPerformanceFeatures × Bool
  | [], f => (f, false)
  | key :: rest, f =>
    match oppStep audits key with
    | .error _ => (f, true)
    | .ok none => oppLoop audits rest f
    | .ok (some d) =>
      oppLoop audits rest { f with opportunities := f.opportunities ++ [d] }

/-- The render-blocking counting loop:
`url = item.get("url", ""); if url.endswith(".css") ... elif ...`; an
exception aborts with the counts so far. -/
def rbCountLoop : List PyVal → Int → Int → Int × Int × Bool
  | [], css, js => (css, js, false)
  | item :: rest, css, js =>
    match pyDictGetD item "url" (.pstr "") with
    | .error _ => (css, js, true)
    | .ok url =>
      match pyStrAttr url with
      | .error _ => (css, js, true)
      | .ok u =>
        if pyEndsWith u ".css" then rbCountLoop rest (css + 1) js
        else if pyEndsWith u ".js" then rbCountLoop rest css (js + 1)
        else rbCountLoop rest css js

/-- The render-blocking-resources section of `_extract_opportunities`
(guarded by `if rb.get("details"):`). -/
def rbPart (audits : PyVal) (f : TechnicalPerformanceFeatures) :
    TechnicalPerformanceFeatures × Bool :=
  match pyDictGetD audits "render-blocking-resources" (.pdict []) with
  | .error _ => (f, true)
  | .ok rb =>
  match pyDictGet rb "details" with
  | .error _ => (f, true)
  | .ok details =>
  if details.truthy then
    match pyDictGetD details "items" (.plist []) with
    | .error _ => (f, true)
    | .ok itemsVal =>
    match pyIter itemsVal with
    | .error _ => (f, true)
    | .ok items =>
    match items.mapM (fun item => pyDictGet item "url") with
    | .error _ => (f, true)
    | .ok urls =>
    let f := { f with render_blocking_resources := urls }
    match rbCountLoop items f.render_blocking_css_count
        f.render_blocking_js_count with
    | (css, js, aborted) =>
      let f2 := { f with render_blocking_css_count := css, render_blocking_js_count := js }
      (f2, aborted)
  else (f, false)

/-- The unused-JavaScript section of `_extract_opportunities`. -/
def unusedJsPart (audits : PyVal) (f : TechnicalPerformanceFeatures) :
    TechnicalPerformanceFeatures × Bool :=
  match pyDictGetD audits "unused-javascript" (.pdict []) with
  | .error _ => (f, true)
  | .ok uj =>
  match pyDictGet uj "details" with
  | .error _ => (f, true)
  | .ok details =>
  if details.truthy then
    match pyDictGet uj "numericValue" with
    | .error _ => (f, true)
    | .ok nv => ({ f with unused_js_bytes := nv }, false)
  else (f, false)

/-- The unused-CSS section of `_extract_opportunities`. -/
def unusedCssPart (audits : PyVal) (f : TechnicalPerformanceFeatures) :
    TechnicalPerformanceFeatures × Bool :=
  match pyDictGetD audits "unused-css-rules" (.pdict []) with
  | .error _ => (f, true)
  | .ok uc =>
  match pyDictGet uc "details" with
  | .error _ => (f, true)
  | .ok details =>
  if details.truthy then
    match pyDictGet uc "numericValue" with
    | .error _ => (f, true)
    | .ok nv => ({ f with unused_css_bytes := nv }, false)
  else (f, false)

/-- `_extract_opportunities`: the keyed loop, then render-blocking
resources, then unused JS/CSS; the method's `try/except` keeps the state at
any failure point. -/
def extractOpportunities (data : PyVal)
    (f : TechnicalPerformanceFeatures) : TechnicalPerformanceFeatures :=
  match pyDictGetD data "lighthouseResult" (.pdict []) with
  | .error _ => f
  | .ok lighthouse =>
  match pyDictGetD lighthouse "audits" (.pdict []) with
  | .error _ => f
  | .ok audits =>
  match oppLoop audits opportunityKeys f with
  | (f1, true) => f1
  | (f1, false) =>
  match rbPart audits f1 with
  | (f2, true) => f2
  | (f2, false) =>
  match unusedJsPart audits f2 with
  | (f3, true) => f3
  | (f3, false) => (unusedCssPart audits f3).1

/-- The fixed audit keys scanned for diagnostics. -/
def diagnosticKeys : List String :=
  ["main-thread-tasks", "bootup-time", "third-party-summary", "font-display",
   "uses-http2"]

/-- One iteration of the diagnostics loop: the dict appended when
`audit.get("score") is not None`. -/
def diagStep (audits : PyVal) (key : String) : Except String (Option PyVal) := do
  let audit ← pyDictGetD audits key (.pdict [])
  let s ← pyDictGet audit "score"
  if s.isNone then
    return none
  else
    let title ← pyDictGet audit "title"
    let desc ← pyDictGet audit "description"
    let dv ← pyDictGet audit "displayValue"
    return (some (.pdict [("id", .pstr key), ("title", title),
      ("description", desc), ("score", s), ("display_value", dv)]))

/-- The diagnostics loop over the fixed keys. -/
def diagLoop (audits : PyVal) :
    List String → TechnicalPerformanceFeatures →
      TechnicalPerformanceFeatures × Bool
  | [], f => (f, false)
  | key :: rest, f =>
    match diagStep audits key with
    | .error _ => (f, true)
    | .ok none => diagLoop audits rest f
    | .ok (some d) =>
      diagLoop audits rest { f with diagnostics := f.diagnostics ++ [d] }

/-- `total_js_execution_time = audits.get("bootup-time", {}).get("numericValue")`
(unconditional). -/
def bootupPart (audits : PyVal) (f : TechnicalPerformanceFeatures) :
    TechnicalPerformanceFeatures × Bool :=
  match pyDictGetD audits "bootup-time" (.pdict []) with
  | .error _ => (f, true)
  | .ok b =>
  match pyDictGet b "numericValue" with
  | .error _ => (f, true)
  | .ok nv => ({ f with total_js_execution_time := nv }, false)

/-- `sum(item.get(key, 0) for item in items)`. -/
def sumField (items : List PyVal) (key : String) : Except String PyVal := do
  let vals ← items.mapM (fun item => pyDictGetD item key (.pint 0))
  pySumNum vals

/-- The third-party-summary section of `_extract_diagnostics` (guarded by
`if third_party.get("details"):`): request count via `len`, then the two
sums. -/
def thirdPartyPart (audits : PyVal) (f : TechnicalPerformanceFeatures) :
    TechnicalPerformanceFeatures × Bool :=
  match pyDictGetD audits "third-party-summary" (.pdict []) with
  | .error _ => (f, true)
  | .ok tp =>
  match pyDictGet tp "details" with
  | .error _ => (f, true)
  | .ok details =>
  if details.truthy then
    match pyDictGetD details "items" (.plist []) with
    | .error _ => (f, true)
    | .ok itemsVal =>
    match pyLen itemsVal with
    | .error _ => (f, true)
    | .ok n =>
    let f := { f with third_party_requests := n }
    match pyIter itemsVal with
    | .error _ => (f, true)
    | .ok items =>
    match sumField items "transferSize" with
    | .error _ => (f, true)
    | .ok sz =>
    let f := { f with third_party_size := sz }
    match sumField items "blockingTime" with
    | .error _ => (f, true)
    | .ok bt => ({ f with third_party_blocking_time := bt }, false)
  else (f, false)

/-- `uses_http2 = audits.get("uses-http2", {}).get("score", 0) == 1`. -/
def http2Part (audits : PyVal) (f : TechnicalPerformanceFeatures) :
    TechnicalPerformanceFeatures × Bool :=
  match pyDictGetD audits "uses-http2" (.pdict []) with
  | .error _ => (f, true)
  | .ok a =>
  match pyDictGetD a "score" (.pint 0) with
  | .error _ => (f, true)
  | .ok s => ({ f with uses_http2 := pyEqInt s 1 }, false)

/-- `font_display_set = audits.get("font-display", {}).get("score", 0) == 1`. -/
def fontPart (audits : PyVal) (f : TechnicalPerformanceFeatures) :
    TechnicalPerformanceFeatures × Bool :=
  match pyDictGetD audits "font-display" (.pdict []) with
  | .error _ => (f, true)
  | .ok a =>
  match pyDictGetD a "score" (.pint 0) with
  | .error _ => (f, true)
  | .ok s => ({ f with font_display_set := pyEqInt s 1 }, false)

/-- `_extract_diagnostics`: the keyed loop, then bootup time, third-party
summary, HTTP/2 and font-display flags in source order. -/
def extractDiagnostics (data : PyVal)
    (f : TechnicalPerformanceFeatures) : TechnicalPerformanceFeatures :=
  match pyDictGetD data "lighthouseResult" (.pdict []) with
  | .error _ => f
  | .ok lighthouse =>
  match pyDictGetD lighthouse "audits" (.pdict []) with
  | .error _ => f
  | .ok audits =>
  match diagLoop audits diagnosticKeys f with
  | (f1, true) => f1
  | (f1, false) =>
  match bootupPart audits f1 with
  | (f2, true) => f2
  | (f2, false) =>
  match thirdPartyPart audits f2 with
  | (f3, true) => f3
  | (f3, false) =>
  match http2Part audits f3 with
  | (f4, true) => f4
  | (f4, false) => (fontPart audits f4).1

/-- Outcome of the PageSpeed Insights API call of
`PerformanceAnalyzer.extract`: parsed JSON data (with the `analyzed_at`
timestamp), a `requests.exceptions.RequestException` (from the HTTP call or
`raise_for_status`), or any other exception in the `try` block (e.g. JSON
decoding on requests versions whose `json()` raises a plain `ValueError`). -/
inductive PagespeedOutcome where
  | ok (data : PyVal) (now : String)
  | requestError (msg : String)
  | otherError (msg : String)

/-- Does the outcome land in the `except requests.exceptions.RequestException`
branch? -/
def isRequestError : PagespeedOutcome → Bool
  | .requestError _ => true
  | _ => false

/-- `PerformanceAnalyzer.extract`: on success, run the four parsing helpers
and set `analysis_source = "pagespeed"`; on a `RequestException`, set
`api_error` and `fallback_used = True`; on any other exception set only
`api_error`. -/
def performanceAnalyzerExtract (url : String) (o : PagespeedOutcome) :
    TechnicalPerformanceFeatures :=
  let f0 : TechnicalPerformanceFeatures := { url := url }
  match o with
  | .ok data now =>
    let f := extractLighthouseMetrics data f0
    let f := extractCoreWebVitals data f
    let f := extractOpportunities data f
    let f := extractDiagnostics data f
    { f with analysis_source := "pagespeed", analyzed_at := now }
  | .requestError msg =>
    { f0 with
        api_error := some ("PageSpeed API request failed: " ++ msg),
        fallback_used := true }
  | .otherError msg =>
    { f0 with
        api_error := some ("Unexpected error during PageSpeed analysis: " ++ msg) }

/-- `PerformanceAnalyzer._to_dict`. -/
def psToDict (f : TechnicalPerformanceFeatures) : PDict :=
  [("url", .pstr f.url),
   ("analyzed_at", .pstr f.analyzed_at),
   ("performance_score", optIntVal f.performance_score),
   ("accessibility_score", optIntVal f.accessibility_score),
   ("best_practices_score", optIntVal f.best_practices_score),
   ("seo_score", optIntVal f.seo_score),
   ("lcp_score", f.lcp_score),
   ("lcp_value", f.lcp_value),
   ("fid_score", f.fid_score),
   ("fid_value", f.fid_value),
   ("cls_score", f.cls_score),
   ("cls_value", f.cls_value),
   ("fcp_score", f.fcp_score),
   ("fcp_value", f.fcp_value),
   ("tti_score", f.tti_score),
   ("tti_value", f.tti_value),
   ("speed_index_score", f.speed_index_score),
   ("speed_index_value", f.speed_index_value),
   ("tbt_score", f.tbt_score),
   ("tbt_value", f.tbt_value),
   ("render_blocking_css_count", .pint f.render_blocking_css_count),
   ("render_blocking_js_count", .pint f.render_blocking_js_count),
   ("render_blocking_resources", .plist f.render_blocking_resources),
   ("unused_js_bytes", f.unused_js_bytes),
   ("unused_css_bytes", f.unused_css_bytes),
   ("total_js_execution_time", f.total_js_execution_time),
   ("third_party_requests", .pint f.third_party_requests),
   ("third_party_size", f.third_party_size),
   ("third_party_blocking_time", f.third_party_blocking_time),
   ("uses_http2", .pbool f.uses_http2),
   ("font_display_set", .pbool f.font_display_set),
   ("opportunities", .plist f.opportunities),
   ("diagnostics", .plist f.diagnostics),
   ("analysis_source", .pstr f.analysis_source),
   ("api_error", optStrVal f.api_error),
   ("fallback_used", .pbool f.fallback_used)]

/-- The HEAD response seen by `HeaderAnalyzer.extract`: elapsed seconds,
status code, redirect history length, the (case-insensitive) header map of
`requests`, and `response.raw.version` when present. -/
structure HeadResponse where
  elapsed_seconds : Rat
  status_code : Int
  history_length : Nat
  headers : List (String × String)
  raw_version : Option Int

/-- Outcome of the HEAD request of `HeaderAnalyzer.extract`. -/
inductive HeaderOutcome where
  | ok (resp : HeadResponse) (now : String)
  | error (msg : String)

/-- Case-insensitive header lookup, as in `requests`' `CaseInsensitiveDict`. -/
def ciLookup (hs : List (String × String)) (key : String) : Option String :=
  (hs.find? (fun kv => lowerAscii kv.1 = lowerAscii key)).map Prod.snd

/-- Case-insensitive `key in headers`. -/
def ciHas (hs : List (String × String)) (key : String) : Bool :=
  (ciLookup hs key).isSome

/-- Case-insensitive `headers.get(key, dflt)`. -/
def ciGetD (hs : List (String × String)) (key dflt : String) : String :=
  (ciLookup hs key).getD dflt

/-- `HeaderAnalyzer.extract`: the HEAD request either succeeds (and every
following assignment is exception-free) or the `except` block records
`api_error` on otherwise default features. -/
def headerAnalyzerExtract (url : String) (o : HeaderOutcome) :
    TechnicalPerformanceFeatures :=
  let f0 : TechnicalPerformanceFeatures := { url := url }
  match o with
  | .error msg => { f0 with api_error := some ("Error analyzing headers: " ++ msg) }
  | .ok r now =>
    let f := { f0 with
      response_time := .pfloat (r.elapsed_seconds * 1000),
      http_status_code := some r.status_code,
      redirects_count := (r.history_length : Int) }
    let content_encoding := lowerAscii (ciGetD r.headers "Content-Encoding" "")
    let f := { f with
      uses_gzip_compression := containsSub content_encoding "gzip",
      uses_brotli_compression := containsSub content_encoding "br" }
    let f := if ciHas r.headers "Cache-Control" then
        { f with
          has_cache_control := true,
          cache_control_value := ciLookup r.headers "Cache-Control" }
      else f
    let f := if ciHas r.headers "ETag" then { f with has_etag := true } else f
    let f := if ciHas r.headers "Expires" then
        { f with
          has_expires := true,
          expires_value := ciLookup r.headers "Expires" }
      else f
    let f := if ciHas r.headers "Strict-Transport-Security" then
        { f with
          has_hsts := true,
          hsts_value := ciLookup r.headers "Strict-Transport-Security" }
      else f
    let f := if ciHas r.headers "Content-Security-Policy" then
        { f with
          has_csp := true,
          csp_value := ciLookup r.headers "Content-Security-Policy" }
      else f
    let f := if ciHas r.headers "X-Frame-Options" then
        { f with
          has_x_frame_options := true,
          x_frame_options_value := ciLookup r.headers "X-Frame-Options" }
      else f
    let f := if ciHas r.headers "X-Content-Type-Options" then
        { f with has_x_content_type_options := true }
      else f
    let f := if ciHas r.headers "Referrer-Policy" then
        { f with
          has_referrer_policy := true,
          referrer_policy_value := ciLookup r.headers "Referrer-Policy" }
      else f
    let f := if ciHas r.headers "Server" then
        { f with server_type := ciLookup r.headers "Server" }
      else f
    let f := match r.raw_version with
      | some v =>
        if v = 20 then { f with uses_http2 := true }
        else if v = 30 then { f with uses_http3 := true }
        else f
      | none => f
    { f with analysis_source := "headers", analyzed_at := now }

/-- `HeaderAnalyzer._to_dict`. -/
def hdrToDict (f : TechnicalPerformanceFeatures) : PDict :=
  [("url", .pstr f.url),
   ("analyzed_at", .pstr f.analyzed_at),
   ("response_time", f.response_time),
   ("http_status_code", optIntVal f.http_status_code),
   ("redirects_count", .pint f.redirects_count),
   ("uses_gzip_compression", .pbool f.uses_gzip_compression),
   ("uses_brotli_compression", .pbool f.uses_brotli_compression),
   ("has_cache_control", .pbool f.has_cache_control),
   ("cache_control_value", optStrVal f.cache_control_value),
   ("has_etag", .pbool f.has_etag),
   ("has_expires", .pbool f.has_expires),
   ("expires_value", optStrVal f.expires_value),
   ("has_hsts", .pbool f.has_hsts),
   ("hsts_value", optStrVal f.hsts_value),
   ("has_csp", .pbool f.has_csp),
   ("csp_value", optStrVal f.csp_value),
   ("has_x_frame_options", .pbool f.has_x_frame_options),
   ("x_frame_options_value", optStrVal f.x_frame_options_value),
   ("has_x_content_type_options", .pbool f.has_x_content_type_options),
   ("has_referrer_policy", .pbool f.has_referrer_policy),
   ("referrer_policy_value", optStrVal f.referrer_policy_value),
   ("server_type", optStrVal f.server_type),
   ("uses_http2", .pbool f.uses_http2),
   ("uses_http3", .pbool f.uses_http3),
   ("analysis_source", .pstr f.analysis_source),
   ("api_error", optStrVal f.api_error)]

/-- One network response recorded by the local analyzer:
`{"url", "status", "content_type", "size"}`. -/
structure LocalResource where
  url : String
  status : Int
  content_type : String
  size : Int

/-- The two fields of the in-page `performance` evaluation that the local
analyzer stores (`firstContentfulPaint`, `decodedBodySize`); a value can be
`None` when the JS expression was undefined. -/
structure LocalPerfData where
  firstContentfulPaint : PyVal
  decodedBodySize : PyVal

/-- Outcome of the Playwright session of `LocalPerformanceAnalyzer.extract`. -/
inductive LocalOutcome where
  | ok (resources : List LocalResource) (load_time_ms : Rat)
      (perf : LocalPerfData) (now : String)
  | importError
  | error (msg : String)

/-- One step of `_analyze_resources`: bucket a response by content type or
URL extension; `(x or 0) + size` on an optional size is `getD 0 + size`. -/
def analyzeResourceStep (f : TechnicalPerformanceFeatures)
    (resource : LocalResource) : TechnicalPerformanceFeatures :=
  let content_type := lowerAscii resource.content_type
  let size := resource.size
  if containsSub content_type "text/html" then
    { f with
        html_size := some (f.html_size.getD 0 + size),
        html_requests := f.html_requests + 1 }
  else if containsSub content_type "text/css" || pyEndsWith resource.url ".css" then
    { f with
        css_size := some (f.css_size.getD 0 + size),
        css_requests := f.css_requests + 1 }
  else if containsSub content_type "javascript" || pyEndsWith resource.url ".js" then
    { f with
        js_size := some (f.js_size.getD 0 + size),
        js_requests := f.js_requests + 1 }
  else if containsSub content_type "image" then
    { f with
        image_size := some (f.image_size.getD 0 + size),
        image_requests := f.image_requests + 1 }
  else if containsSub content_type "font" || pyEndsWith resource.url ".woff" ||
      pyEndsWith resource.url ".woff2" || pyEndsWith resource.url ".ttf" ||
      pyEndsWith resource.url ".otf" then
    { f with
        font_size := some (f.font_size.getD 0 + size),
        font_requests := f.font_requests + 1 }
  else
    { f with
        other_size := some (f.other_size.getD 0 + size),
        other_requests := f.other_requests + 1 }

/-- `LocalPerformanceAnalyzer.extract`: on success, bucket the resources and
store the navigation metrics; an `ImportError` or any other exception records
`api_error` on otherwise default features. -/
def localPerformanceAnalyzerExtract (url : String) (o : LocalOutcome) :
    TechnicalPerformanceFeatures :=
  let f0 : TechnicalPerformanceFeatures := { url := url }
  match o with
  | .importError =>
    { f0 with
        api_error := some
          "Playwright not installed. Run: pip install playwright && playwright install chromium" }
  | .error msg =>
    { f0 with
        api_error := some ("Error during local performance analysis: " ++ msg) }
  | .ok resources load_time_ms perf now =>
    let f := resources.foldl analyzeResourceStep f0
    { f with
        response_time := .pfloat load_time_ms,
        fcp_value := perf.firstContentfulPaint,
        total_page_size := perf.decodedBodySize,
        total_requests := some (resources.length : Int),
        analysis_source := "local",
        analyzed_at := now }

/-- `LocalPerformanceAnalyzer._to_dict`. -/
def localToDict (f : TechnicalPerformanceFeatures) : PDict :=
  [("url", .pstr f.url),
   ("analyzed_at", .pstr f.analyzed_at),
   ("response_time", f.response_time),
   ("fcp_value", f.fcp_value),
   ("total_page_size", f.total_page_size),
   ("total_requests", optIntVal f.total_requests),
   ("html_size", optIntVal f.html_size),
   ("css_size", optIntVal f.css_size),
   ("js_size", optIntVal f.js_size),
   ("image_size", optIntVal f.image_size),
   ("font_size", optIntVal f.font_size),
   ("other_size", optIntVal f.other_size),
   ("html_requests", .pint f.html_requests),
   ("css_requests", .pint f.css_requests),
   ("js_requests", .pint f.js_requests),
   ("image_requests", .pint f.image_requests),
   ("font_requests", .pint f.font_requests),
   ("other_requests", .pint f.other_requests),
   ("analysis_source", .pstr f.analysis_source),
   ("api_error", optStrVal f.api_error)]

/-- `analyze_performance(url, use_fallback)`: stage 1 (PageSpeed), stage 2
(headers, always, overlaid unconditionally by `dict.update`), and — only when
`pagespeed_data.get("api_error")` is truthy and `use_fallback` — stage 3
(local measurement), which fills only keys whose combined value
`.get(key) is None`. -/
def analyzePerformance (url : String) (ps : PagespeedOutcome)
    (hdr : HeaderOutcome) (loc : LocalOutcome) (use_fallback : Bool) : PDict :=
  let pagespeed_data := psToDict (performanceAnalyzerExtract url ps)
  let combined_features := dictUpdate [] pagespeed_data
  let headers_data := hdrToDict (headerAnalyzerExtract url hdr)
  let combined_features := dictUpdate combined_features headers_data
  if (pyGet pagespeed_data "api_error").truthy && use_fallback then
    let local_data := localToDict (localPerformanceAnalyzerExtract url loc)
    fillMissing combined_features local_data
  else combined_features

/- ### Theorems -/

theorem dictLookup_dictSet (d : PDict) (key k : String) (v : PyVal) :
    dictLookup (dictSet d key v) k =
      if key = k then some v else dictLookup d k := by
  induction d with
  | nil =>
    by_cases h : key = k <;> simp [dictSet, dictLookup, h]
  | cons kv rest ih =>
    obtain ⟨k0, v0⟩ := kv
    by_cases h0 : k0 = key
    · subst h0
      by_cases h : k0 = k <;> simp [dictSet, dictLookup, h]
    · by_cases h : k0 = k
      · subst h
        have : ¬ key = k0 := fun hh => h0 hh.symm
        simp [dictSet, dictLookup, h0, this]
      · simp [dictSet, dictLookup, h0, h, ih]

theorem dictLookup_dictUpdate (d1 d2 : PDict) (key : String) :
    dictLookup (dictUpdate d1 d2) key =
      (dictLookupLast d2 key).orElse (fun _ => dictLookup d1 key) := by
  induction d2 generalizing d1 with
  | nil => simp [dictUpdate, dictLookupLast, Option.orElse]
  | cons kv rest ih =>
    simp only [dictUpdate, List.foldl_cons, dictLookupLast] at *
    rw [ih (dictSet d1 kv.1 kv.2), dictLookup_dictSet]
    cases hr : dictLookupLast rest key <;>
      by_cases h : kv.1 = key <;> simp [hr, h, Option.orElse]

theorem pyGet_fillMissing_of_not_none (combined s3 : PDict) (key : String)
    (h : (pyGet combined key).isNone = false) :
    pyGet (fillMissing combined s3) key = pyGet combined key := by
  induction s3 generalizing combined with
  | nil => simp [fillMissing]
  | cons kv rest ih =>
    simp only [fillMissing, List.foldl_cons] at *
    by_cases hfill : (pyGet combined kv.1).isNone
    · simp only [hfill, if_pos]
      have hne : ¬ kv.1 = key := by
        intro hk; rw [hk] at hfill; rw [h] at hfill; exact Bool.noConfusion hfill
      have hget : pyGet (dictSet combined kv.1 kv.2) key = pyGet combined key := by
        simp [pyGet, dictLookup_dictSet, hne]
      have := ih (dictSet combined kv.1 kv.2) (by rw [hget]; exact h)
      simpa [fillMissing, hget] using this
    · simp only [hfill, if_neg, Bool.false_eq_true, not_false_iff]
      exact ih combined h

/-- C2: every input whose string form (string input), or whose `url` field
(dict input), starts with `http://` or `https://` satisfies both the
Performance-eligibility predicate `_check_is_url` and the SEO-eligibility
predicate `_check_has_url_or_html`. -/
theorem url_inputs_satisfy_seo_and_performance_predicates :
    (∀ s : String,
      (pyStartsWith s "http://" = true ∨ pyStartsWith s "https://" = true) →
      checkIsUrl (.pstr s) = true ∧ checkHasUrlOrHtml (.pstr s) = true) ∧
    (∀ (d : PDict) (s : String),
      dictLookup d "url" = some (.pstr s) →
      (pyStartsWith s "http://" = true ∨ pyStartsWith s "https://" = true) →
      checkIsUrl (.pdict d) = true ∧ checkHasUrlOrHtml (.pdict d) = true) := by
  constructor
  · intro s hs
    rcases hs with h | h <;> simp [checkIsUrl, checkHasUrlOrHtml, h]
  · intro d s hd hs
    have hmem : dictHasKey d "url" = true := by
      simp [dictHasKey, hd]
    rcases hs with h | h <;>
      simp [checkIsUrl, checkHasUrlOrHtml, hd, h, hmem]

/-- Witness for C2 at a concrete string input and a concrete dict input. -/
theorem url_inputs_satisfy_seo_and_performance_predicates_witness :
    checkIsUrl (.pstr "https://example.com") = true ∧
    checkHasUrlOrHtml (.pdict [("url", .pstr "http://a.b")]) = true :=
  ⟨(url_inputs_satisfy_seo_and_performance_predicates.1
      "https://example.com" (Or.inr (by decide))).1,
   (url_inputs_satisfy_seo_and_performance_predicates.2
      [("url", .pstr "http://a.b")] "http://a.b" rfl (Or.inl (by decide))).2⟩

/-- C3 counterexample: when the classifier call fails on the input
`"http://example.com"`, `classify_input_step` does not classify it as a URL —
the fallback classification type is the fixed string `"unknown"`, not
`"url"`. -/
theorem classifier_fallback_not_rule_based :
    classifyInputStep "http://example.com" (.error "boom")
      = .pdict (classifyDefault "http://example.com" "boom") ∧
    pyGet (classifyDefault "http://example.com" "boom") "type"
      = .pstr "unknown" ∧
    pyGet (classifyDefault "http://example.com" "boom") "type"
      ≠ .pstr "url" := by
  refine ⟨rfl, rfl, ?_⟩
  intro h
  rw [show pyGet (classifyDefault "http://example.com" "boom") "type"
        = PyVal.pstr "unknown" from rfl] at h
  injection h with h2
  exact absurd h2 (by decide)

/-- C3 amended: on any classifier failure, `classify_input_step` returns the
fixed default classification — type `"unknown"`, confidence `"low"`,
reasoning `"Classification failed: <err>"`, and the stringified raw input —
regardless of the input's shape; there is no rule-based URL/HTML/screenshot
fallback. -/
theorem classifier_failure_default_unknown (inputStr msg : String) :
    classifyInputStep inputStr (.error msg) = .pdict (classifyDefault inputStr msg) ∧
    pyGet (classifyDefault inputStr msg) "type" = .pstr "unknown" ∧
    pyGet (classifyDefault inputStr msg) "confidence" = .pstr "low" ∧
    pyGet (classifyDefault inputStr msg) "reasoning"
      = .pstr ("Classification failed: " ++ msg) ∧
    pyGet (classifyDefault inputStr msg) "normalized_input" = .pstr inputStr := by
  refine ⟨rfl, ?_, ?_, ?_, ?_⟩ <;> simp [classifyDefault, pyGet, dictLookup]

/-- C4 counterexample: for the raw-HTML string input `"<p>hello</p>"`, only
the SEO condition's steps execute; the Performance branch is skipped and
contributes nothing — in particular no `Skipped` placeholder result — so the
payload reaching the synthesis step does not contain all three branches. -/
theorem skipped_branch_no_placeholder :
    executedBranches (.pstr "<p>hello</p>") = ["SEO Analysis Condition"] ∧
    "Performance Analysis Condition" ∉ executedBranches (.pstr "<p>hello</p>") := by
  constructor
  · rfl
  · intro h
    simp [executedBranches, workflowConditions, checkHasUrlOrHtml, checkIsUrl,
      needsUiuxAnalysis, checkHasScreenshot, pyStartsWith, dictHasKey,
      dictLookup, List.isPrefixOf] at h

/-- C4 amended: a branch whose eligibility predicate is false is skipped
entirely and contributes no result (and no placeholder text) to the combined
payload; the branches that do run appear as the predicate-filtered sublist of
the fixed (SEO, Performance, Visual) order. -/
theorem skipped_branches_contribute_nothing (inp : PyVal) :
    executedBranches inp =
      (if checkHasUrlOrHtml inp then ["SEO Analysis Condition"] else []) ++
      (if checkIsUrl inp then ["Performance Analysis Condition"] else []) ++
      (if needsUiuxAnalysis inp then ["UI/UX Analysis Condition"] else []) ∧
    (executedBranches inp).Sublist
      ["SEO Analysis Condition", "Performance Analysis Condition",
       "UI/UX Analysis Condition"] := by
  constructor
  · cases h1 : checkHasUrlOrHtml inp <;> cases h2 : checkIsUrl inp <;>
      cases h3 : needsUiuxAnalysis inp <;>
      simp [executedBranches, workflowConditions, h1, h2, h3]
  · have : ["SEO Analysis Condition", "Performance Analysis Condition",
        "UI/UX Analysis Condition"] = workflowConditions.map Prod.fst := rfl
    rw [this]
    exact List.Sublist.map Prod.fst (List.filter_sublist _)

theorem pySliceTo_length_le (s : String) (n : Nat) :
    (pySliceTo s n).length ≤ n := by
  show (s.data.take n).length ≤ n
  simp

theorem imageFeatureStep_counts (acc : ImageFeatures) (img : ImgTag) :
    (imageFeatureStep acc img).images_with_alt +
        (imageFeatureStep acc img).images_without_alt =
      acc.images_with_alt + acc.images_without_alt + 1 ∧
    (imageFeatureStep acc img).total_images = acc.total_images := by
  unfold imageFeatureStep
  dsimp only
  split_ifs <;> simp <;> omega

theorem imageFeatureStep_missing (acc : ImageFeatures) (img : ImgTag) :
    (imageFeatureStep acc img).missing_alt_images = acc.missing_alt_images ∨
    (imageFeatureStep acc img).missing_alt_images
      = acc.missing_alt_images ++ [pySliceTo img.src 100] := by
  unfold imageFeatureStep
  dsimp only
  split_ifs <;> simp

theorem imageFold_spec (images : List ImgTag) (acc : ImageFeatures) :
    (images.foldl imageFeatureStep acc).images_with_alt +
        (images.foldl imageFeatureStep acc).images_without_alt =
      acc.images_with_alt + acc.images_without_alt + images.length ∧
    (images.foldl imageFeatureStep acc).total_images = acc.total_images ∧
    ∀ s ∈ (images.foldl imageFeatureStep acc).missing_alt_images,
      s ∈ acc.missing_alt_images ∨ s.length ≤ 100 := by
  induction images generalizing acc with
  | nil => exact ⟨by simp, by simp, fun s hs => Or.inl (by simpa using hs)⟩
  | cons img rest ih =>
    simp only [List.foldl_cons, List.length_cons]
    obtain ⟨c1, c2, c3⟩ := ih (imageFeatureStep acc img)
    obtain ⟨s1, s2⟩ := imageFeatureStep_counts acc img
    refine ⟨by omega, by rw [c2, s2], ?_⟩
    intro s hs
    rcases c3 s hs with hmem | hlen
    · rcases imageFeatureStep_missing acc img with he | he
      · rw [he] at hmem
        exact Or.inl hmem
      · rw [he] at hmem
        rcases List.mem_append.mp hmem with h | h
        · exact Or.inl h
        · rw [List.mem_singleton.mp h]
          exact Or.inr (pySliceTo_length_le _ _)
    · exact Or.inr hlen

/-- C6: the content-depth score is clamped to `[0, 100]` (each `score +=`
increment is non-negative and the final value is `min(score, 100)`), and
`extract_link_features` always satisfies
`total_links = internal_links + external_links`, for every URL-resolution
behaviour. -/
theorem content_depth_bounds_and_link_invariant :
    (∀ (wc pc : Nat) (apl : Rat) (hl ht : Bool) (h1 h2 h3 ti iwa : Nat),
      0 ≤ content_depth_score wc pc apl hl ht h1 h2 h3 ti iwa ∧
      content_depth_score wc pc apl hl ht h1 h2 h3 ti iwa ≤ 100) ∧
    (∀ (netloc : String → String) (urljoin : String → String → String)
        (url : String) (hrefs : List String),
      (extract_link_features netloc urljoin url hrefs).total_links =
        (extract_link_features netloc urljoin url hrefs).internal_links +
        (extract_link_features netloc urljoin url hrefs).external_links) := by
  constructor
  · intro wc pc apl hl ht h1 h2 h3 ti iwa
    constructor
    · unfold content_depth_score
      refine le_min ?_ (by norm_num)
      unfold contentDepthScoreRaw
      repeat' apply add_nonneg
      all_goals split_ifs <;> norm_num
    · exact min_le_right _ _
  · intro netloc urljoin url hrefs
    rfl

/-- C10: `extract_image_features` counts every image in exactly one of the
with-alt/without-alt buckets (`images_with_alt + images_without_alt =
total_images`), and every recorded missing-alt src has at most 100
characters. -/
theorem image_alt_partition_and_src_truncation :
    (∀ images : List ImgTag,
      (extract_image_features images).images_with_alt +
        (extract_image_features images).images_without_alt =
        (extract_image_features images).total_images) ∧
    (∀ (images : List ImgTag) (s : String),
      s ∈ (extract_image_features images).missing_alt_images →
      s.length ≤ 100) := by
  constructor
  · intro images
    obtain ⟨c1, c2, _⟩ := imageFold_spec images
      { total_images := images.length, images_with_alt := 0,
        images_without_alt := 0, missing_alt_images := [] }
    unfold extract_image_features
    rw [c1, c2]
    simp
  · intro images s hs
    obtain ⟨_, _, c3⟩ := imageFold_spec images
      { total_images := images.length, images_with_alt := 0,
        images_without_alt := 0, missing_alt_images := [] }
    rcases c3 s hs with hmem | hlen
    · simp at hmem
    · exact hlen

/-- Witness for C10 at a concrete image list: one image with empty alt and a
recorded src. -/
theorem image_alt_partition_and_src_truncation_witness :
    ("img.png").length ≤ 100 ∧
    (extract_image_features [{ alt := "", src := "img.png" }]).images_with_alt +
      (extract_image_features [{ alt := "", src := "img.png" }]).images_without_alt =
      (extract_image_features [{ alt := "", src := "img.png" }]).total_images :=
  ⟨image_alt_partition_and_src_truncation.2 [{ alt := "", src := "img.png" }]
      "img.png" (by decide),
   image_alt_partition_and_src_truncation.1 [{ alt := "", src := "img.png" }]⟩

/-- C7: the accessibility score equals
`max(0, 100 - 15*critical - 10*serious - 5*moderate)` where the counts are
the numbers of issue entries per severity; it is never negative, and it is
monotonically non-increasing in the per-severity counts. -/
theorem accessibility_score_formula_monotone_floored :
    (∀ issues : List AccessibilityIssue,
      accessibilityScoreOf issues
        = max 0 (100 - 15 * countSeverity issues "critical"
            - 10 * countSeverity issues "serious"
            - 5 * countSeverity issues "moderate") ∧
      0 ≤ accessibilityScoreOf issues) ∧
    (∀ i1 i2 : List AccessibilityIssue,
      countSeverity i1 "critical" ≤ countSeverity i2 "critical" →
      countSeverity i1 "serious" ≤ countSeverity i2 "serious" →
      countSeverity i1 "moderate" ≤ countSeverity i2 "moderate" →
      accessibilityScoreOf i2 ≤ accessibilityScoreOf i1) := by
  constructor
  · intro issues
    unfold accessibilityScoreOf
    dsimp only
    constructor
    · omega
    · omega
  · intro i1 i2 hc hs hm
    unfold accessibilityScoreOf
    dsimp only
    omega

/-- Witness for C7: one serious issue scores 90, below the empty audit's
100. -/
theorem accessibility_score_formula_monotone_floored_witness :
    accessibilityScoreOf
        [{ type := "missing_lang", severity := "serious", count := 1,
           description := "HTML element missing lang attribute" }]
      ≤ accessibilityScoreOf [] :=
  accessibility_score_formula_monotone_floored.2 []
    [{ type := "missing_lang", severity := "serious", count := 1,
       description := "HTML element missing lang attribute" }]
    (by decide) (by decide) (by decide)

theorem strDictSet_append_of_not_mem (acc : List (String × String))
    (key v : String) (h : key ∉ acc.map Prod.fst) :
    strDictSet acc key v = acc ++ [(key, v)] := by
  induction acc with
  | nil => rfl
  | cons e rest ih =>
    simp only [List.map_cons, List.mem_cons] at h
    push_neg at h
    have hne : ¬ e.1 = key := fun hh => h.1 hh.symm
    obtain ⟨k0, v0⟩ := e
    simp only [strDictSet, if_neg hne, List.cons_append]
    rw [ih h.2]

theorem loadScreenshotsFold_spec (fs : String → Option (List Nat))
    (d : List (String × String)) :
    ∀ acc : List (String × String),
    (d.map Prod.fst).Nodup →
    (∀ k ∈ acc.map Prod.fst, k ∉ d.map Prod.fst) →
    d.foldl
        (fun loaded e =>
          match loadScreenshot fs e.2 with
          | .ok b => strDictSet loaded e.1 b
          | .error _ => loaded) acc
      = acc ++ d.filterMap (fun e => (fs e.2).map (fun c => (e.1, b64encode c))) := by
  induction d with
  | nil => intro acc _ _; simp
  | cons e rest ih =>
    intro acc hnd hdisj
    simp only [List.map_cons, List.nodup_cons] at hnd
    cases hfe : fs e.2 with
    | none =>
      have hstep : loadScreenshot fs e.2
          = .error ("Screenshot not found: " ++ e.2) := by
        simp [loadScreenshot, hfe]
      simp only [List.foldl_cons, hstep]
      rw [ih acc hnd.2 (fun k hk => by
        have := hdisj k hk
        simp only [List.map_cons, List.mem_cons] at this
        push_neg at this
        exact this.2)]
      simp [List.filterMap_cons, hfe]
    | some c =>
      have hstep : loadScreenshot fs e.2 = .ok (b64encode c) := by
        simp [loadScreenshot, hfe]
      have hkey : e.1 ∉ acc.map Prod.fst := by
        intro hk
        have := hdisj e.1 hk
        simp at this
      simp only [List.foldl_cons, hstep]
      rw [strDictSet_append_of_not_mem acc e.1 (b64encode c) hkey]
      rw [ih (acc ++ [(e.1, b64encode c)]) hnd.2 ?_]
      · simp [List.filterMap_cons, hfe]
      · intro k hk
        simp only [List.map_append, List.mem_append, List.map_cons,
          List.mem_singleton, List.map_nil] at hk
        rcases hk with hk | hk
        · have := hdisj k hk
          simp only [List.map_cons, List.mem_cons] at this
          push_neg at this
          exact this.2
        · rw [hk]
          exact hnd.1

/-- C8: in ScreenshotSet mode, `_load_screenshots` returns exactly the
viewports whose files loaded, in order (each failed load is skipped without
failing the batch); in particular, a map with one unreadable and one valid
path yields exactly the valid viewport. -/
theorem load_screenshots_skips_unreadable :
    (∀ (fs : String → Option (List Nat)) (d : List (String × String)),
      (d.map Prod.fst).Nodup →
      loadScreenshots fs d
        = d.filterMap (fun e => (fs e.2).map (fun c => (e.1, b64encode c)))) ∧
    loadScreenshots exampleScreenshotFs
        [("desktop", "missing.png"), ("mobile", "valid.png")]
      = [("mobile", b64encode [137, 80])] := by
  constructor
  · intro fs d hnd
    unfold loadScreenshots
    exact loadScreenshotsFold_spec fs d [] hnd (by simp)
  · rfl

/-- Witness for C8 at the concrete scenario filesystem and viewport map. -/
theorem load_screenshots_skips_unreadable_witness :
    loadScreenshots exampleScreenshotFs
        [("desktop", "missing.png"), ("mobile", "valid.png")]
      = [("desktop", "missing.png"), ("mobile", "valid.png")].filterMap
          (fun e => (exampleScreenshotFs e.2).map (fun c => (e.1, b64encode c))) :=
  load_screenshots_skips_unreadable.1 exampleScreenshotFs
    [("desktop", "missing.png"), ("mobile", "valid.png")] (by decide)

/-- C1: in the `analyze_performance` merge, (a) stage 3 never changes a key
whose combined stage-1/stage-2 value is not `None`; (b) stage-2 bindings
unconditionally overlay the stage-1 field set; and (c) the spec's concrete
triple merges to exactly
`{performance_score: 80, lcp_value: 2200, response_time: 120}`. -/
theorem analyze_performance_merge_policy :
    (∀ (s1 s2 s3 : PDict) (key : String),
      (pyGet (combineStage12 s1 s2) key).isNone = false →
      pyGet (fillMissing (combineStage12 s1 s2) s3) key
        = pyGet (combineStage12 s1 s2) key) ∧
    (∀ (s1 s2 : PDict) (key : String) (v : PyVal),
      dictLookupLast s2 key = some v →
      pyGet (combineStage12 s1 s2) key = v) ∧
    fillMissing
        (combineStage12
          [("performance_score", .pint 80), ("lcp_value", .pnone)]
          [("response_time", .pint 120)])
        [("lcp_value", .pint 2200), ("response_time", .pint 999)]
      = [("performance_score", .pint 80), ("lcp_value", .pint 2200),
         ("response_time", .pint 120)] := by
  refine ⟨?_, ?_, rfl⟩
  · intro s1 s2 s3 key h
    exact pyGet_fillMissing_of_not_none _ _ _ h
  · intro s1 s2 key v hv
    simp [combineStage12, pyGet, dictLookup_dictUpdate, hv, Option.orElse]

/-- Witness for C1 at a concrete stage triple with a non-null combined
value. -/
theorem analyze_performance_merge_policy_witness :
    pyGet (fillMissing (combineStage12 [("a", .pint 1)] []) [("a", .pint 9)]) "a"
      = pyGet (combineStage12 [("a", .pint 1)] []) "a" :=
  analyze_performance_merge_policy.1 [("a", .pint 1)] [] [("a", .pint 9)] "a" rfl

theorem extractLighthouseMetrics_fallback (data : PyVal)
    (f : TechnicalPerformanceFeatures) :
    (extractLighthouseMetrics data f).fallback_used = f.fallback_used := by
  unfold extractLighthouseMetrics
  dsimp only
  repeat' split
  all_goals rfl

theorem extractCoreWebVitals_fallback (data : PyVal)
    (f : TechnicalPerformanceFeatures) :
    (extractCoreWebVitals data f).fallback_used = f.fallback_used := by
  unfold extractCoreWebVitals
  dsimp only
  repeat' split
  all_goals rfl

theorem oppLoop_fallback (audits : PyVal) (keys : List String)
    (f : TechnicalPerformanceFeatures) :
    (oppLoop audits keys f).1.fallback_used = f.fallback_used := by
  induction keys generalizing f with
  | nil => rfl
  | cons k rest ih =>
    unfold oppLoop
    split
    · rfl
    · exact ih f
    · exact ih _

theorem rbPart_fallback (audits : PyVal) (f : TechnicalPerformanceFeatures) :
    (rbPart audits f).1.fallback_used = f.fallback_used := by
  unfold rbPart
  dsimp only
  repeat' split
  all_goals rfl

theorem unusedJsPart_fallback (audits : PyVal)
    (f : TechnicalPerformanceFeatures) :
    (unusedJsPart audits f).1.fallback_used = f.fallback_used := by
  unfold unusedJsPart
  repeat' split
  all_goals rfl

theorem unusedCssPart_fallback (audits : PyVal)
    (f : TechnicalPerformanceFeatures) :
    (unusedCssPart audits f).1.fallback_used = f.fallback_used := by
  unfold unusedCssPart
  repeat' split
  all_goals rfl

theorem extractOpportunities_fallback (data : PyVal)
    (f : TechnicalPerformanceFeatures) :
    (extractOpportunities data f).fallback_used = f.fallback_used := by
  unfold extractOpportunities
  split
  · rfl
  rename_i lighthouse hL
  split
  · rfl
  rename_i audits hA
  split
  · rename_i f1 heq1
    have h1 : f1 = (oppLoop audits opportunityKeys f).1 := by rw [heq1]
    rw [h1, oppLoop_fallback]
  · rename_i f1 heq1
    have h1 : f1 = (oppLoop audits opportunityKeys f).1 := by rw [heq1]
    split
    · rename_i f2 heq2
      have h2 : f2 = (rbPart audits f1).1 := by rw [heq2]
      rw [h2, rbPart_fallback, h1, oppLoop_fallback]
    · rename_i f2 heq2
      have h2 : f2 = (rbPart audits f1).1 := by rw [heq2]
      split
      · rename_i f3 heq3
        have h3 : f3 = (unusedJsPart audits f2).1 := by rw [heq3]
        rw [h3, unusedJsPart_fallback, h2, rbPart_fallback, h1, oppLoop_fallback]
      · rename_i f3 heq3
        have h3 : f3 = (unusedJsPart audits f2).1 := by rw [heq3]
        rw [unusedCssPart_fallback, h3, unusedJsPart_fallback, h2,
          rbPart_fallback, h1, oppLoop_fallback]

theorem diagLoop_fallback (audits : PyVal) (keys : List String)
    (f : TechnicalPerformanceFeatures) :
    (diagLoop audits keys f).1.fallback_used = f.fallback_used := by
  induction keys generalizing f with
  | nil => rfl
  | cons k rest ih =>
    unfold diagLoop
    split
    · rfl
    · exact ih f
    · exact ih _

theorem bootupPart_fallback (audits : PyVal)
    (f : TechnicalPerformanceFeatures) :
    (bootupPart audits f).1.fallback_used = f.fallback_used := by
  unfold bootupPart
  repeat' split
  all_goals rfl

theorem thirdPartyPart_fallback (audits : PyVal)
    (f : TechnicalPerformanceFeatures) :
    (thirdPartyPart audits f).1.fallback_used = f.fallback_used := by
  unfold thirdPartyPart
  dsimp only
  repeat' split
  all_goals rfl

theorem http2Part_fallback (audits : PyVal)
    (f : TechnicalPerformanceFeatures) :
    (http2Part audits f).1.fallback_used = f.fallback_used := by
  unfold http2Part
  repeat' split
  all_goals rfl

theorem fontPart_fallback (audits : PyVal)
    (f : TechnicalPerformanceFeatures) :
    (fontPart audits f).1.fallback_used = f.fallback_used := by
  unfold fontPart
  repeat' split
  all_goals rfl

theorem extractDiagnostics_fallback (data : PyVal)
    (f : TechnicalPerformanceFeatures) :
    (extractDiagnostics data f).fallback_used = f.fallback_used := by
  unfold extractDiagnostics
  split
  · rfl
  rename_i lighthouse hL
  split
  · rfl
  rename_i audits hA
  split
  · rename_i f1 heq1
    have h1 : f1 = (diagLoop audits diagnosticKeys f).1 := by rw [heq1]
    rw [h1, diagLoop_fallback]
  · rename_i f1 heq1
    have h1 : f1 = (diagLoop audits diagnosticKeys f).1 := by rw [heq1]
    split
    · rename_i f2 heq2
      have h2 : f2 = (bootupPart audits f1).1 := by rw [heq2]
      rw [h2, bootupPart_fallback, h1, diagLoop_fallback]
    · rename_i f2 heq2
      have h2 : f2 = (bootupPart audits f1).1 := by rw [heq2]
      split
      · rename_i f3 heq3
        have h3 : f3 = (thirdPartyPart audits f2).1 := by rw [heq3]
        rw [h3, thirdPartyPart_fallback, h2, bootupPart_fallback, h1,
          diagLoop_fallback]
      · rename_i f3 heq3
        have h3 : f3 = (thirdPartyPart audits f2).1 := by rw [heq3]
        split
        · rename_i f4 heq4
          have h4 : f4 = (http2Part audits f3).1 := by rw [heq4]
          rw [h4, http2Part_fallback, h3, thirdPartyPart_fallback, h2,
            bootupPart_fallback, h1, diagLoop_fallback]
        · rename_i f4 heq4
          have h4 : f4 = (http2Part audits f3).1 := by rw [heq4]
          rw [fontPart_fallback, h4, http2Part_fallback, h3,
            thirdPartyPart_fallback, h2, bootupPart_fallback, h1,
            diagLoop_fallback]

/-- `fallback_used` after stage 1: true exactly on the
`RequestException` path. -/
theorem psExtract_fallback (url : String) (o : PagespeedOutcome) :
    (performanceAnalyzerExtract url o).fallback_used = isRequestError o := by
  cases o with
  | ok data now =>
    show (extractDiagnostics data (extractOpportunities data
        (extractCoreWebVitals data (extractLighthouseMetrics data
          { url := url })))).fallback_used = false
    rw [extractDiagnostics_fallback, extractOpportunities_fallback,
      extractCoreWebVitals_fallback, extractLighthouseMetrics_fallback]
  | requestError msg => rfl
  | otherError msg => rfl

theorem psToDict_lookupLast_fallback (f : TechnicalPerformanceFeatures) :
    dictLookupLast (psToDict f) "fallback_used" = some (.pbool f.fallback_used) := by
  simp [psToDict, dictLookupLast, Option.orElse]

theorem hdrToDict_lookupLast_fallback (f : TechnicalPerformanceFeatures) :
    dictLookupLast (hdrToDict f) "fallback_used" = none := by
  simp [hdrToDict, dictLookupLast, Option.orElse]

theorem hdrToDict_lookupLast_analysis_source (f : TechnicalPerformanceFeatures) :
    dictLookupLast (hdrToDict f) "analysis_source"
      = some (.pstr f.analysis_source) := by
  simp [hdrToDict, dictLookupLast, Option.orElse]

theorem combined12_fallback (F H : TechnicalPerformanceFeatures) :
    pyGet (dictUpdate (dictUpdate [] (psToDict F)) (hdrToDict H))
        "fallback_used" = .pbool F.fallback_used := by
  simp [pyGet, dictLookup_dictUpdate, hdrToDict_lookupLast_fallback,
    psToDict_lookupLast_fallback, Option.orElse]

theorem combined12_analysis_source (F H : TechnicalPerformanceFeatures) :
    pyGet (dictUpdate (dictUpdate [] (psToDict F)) (hdrToDict H))
        "analysis_source" = .pstr H.analysis_source := by
  simp [pyGet, dictLookup_dictUpdate, hdrToDict_lookupLast_analysis_source,
    Option.orElse]

/-- C5 counterexample: for a stage-1 failure that is not a
`RequestException` (here: a generic error, as raised e.g. by JSON decoding),
`api_error` is truthy so the stage-3 local fallback is invoked
(`use_fallback = True`), yet the merged result carries
`fallback_used = False`. -/
theorem fallback_flag_false_on_generic_error :
    (pyGet (psToDict (performanceAnalyzerExtract "https://example.com"
        (.otherError "boom"))) "api_error").truthy = true ∧
    isRequestError (.otherError "boom") = false ∧
    pyGet (analyzePerformance "https://example.com" (.otherError "boom")
        (.error "connection refused") (.error "nav failed") true)
        "fallback_used" = .pbool false :=
  ⟨rfl, rfl, rfl⟩

/-- C5 amended: the merged `fallback_used` flag equals "stage 1 failed with a
`RequestException`" — it is not set on other stage-1 failures even though
they also trigger stage 3, and it is set on request failures even when
`use_fallback` is false and stage 3 never runs. -/
theorem fallback_used_iff_request_error (url : String) (ps : PagespeedOutcome)
    (hdr : HeaderOutcome) (loc : LocalOutcome) (use_fallback : Bool) :
    pyGet (analyzePerformance url ps hdr loc use_fallback) "fallback_used"
      = .pbool (isRequestError ps) := by
  have hcomb := combined12_fallback (performanceAnalyzerExtract url ps)
    (headerAnalyzerExtract url hdr)
  unfold analyzePerformance
  dsimp only
  split
  · rw [pyGet_fillMissing_of_not_none _ _ _ (by rw [hcomb]; rfl), hcomb,
      psExtract_fallback]
  · rw [hcomb, psExtract_fallback]

/-- C9 counterexample: a successful remote audit stores the literal
`analysis_source = "pagespeed"`, which is not in the spec's claimed value set
`{api, headers, local, merged}`. -/
theorem analysis_source_pagespeed_not_in_spec_set :
    pyGet (psToDict (performanceAnalyzerExtract "https://example.com"
        (.ok (.pdict []) "2024-01-01 00:00:00"))) "analysis_source"
      = .pstr "pagespeed" ∧
    ("pagespeed" : String) ∉ ["api", "headers", "local", "merged"] :=
  ⟨rfl, by decide⟩

/-- C9 amended: `analysis_source` ranges over
`{pagespeed, headers, local, unknown}` — `"pagespeed"`/`"headers"`/`"local"`
after the respective stage succeeds, the `"unknown"` default when it fails —
and the merged dict always carries the header stage's value (stage 2 overlays
stage 1 unconditionally and stage 3 never replaces the non-null string). -/
theorem analysis_source_value_set (url : String) (ps : PagespeedOutcome)
    (hdr : HeaderOutcome) (loc : LocalOutcome) (use_fallback : Bool) :
    ((performanceAnalyzerExtract url ps).analysis_source = "pagespeed" ∨
      (performanceAnalyzerExtract url ps).analysis_source = "unknown") ∧
    ((headerAnalyzerExtract url hdr).analysis_source = "headers" ∨
      (headerAnalyzerExtract url hdr).analysis_source = "unknown") ∧
    ((localPerformanceAnalyzerExtract url loc).analysis_source = "local" ∨
      (localPerformanceAnalyzerExtract url loc).analysis_source = "unknown") ∧
    pyGet (analyzePerformance url ps hdr loc use_fallback) "analysis_source"
      = .pstr (headerAnalyzerExtract url hdr).analysis_source := by
  refine ⟨?_, ?_, ?_, ?_⟩
  · cases ps with
    | ok data now => exact Or.inl rfl
    | requestError msg => exact Or.inr rfl
    | otherError msg => exact Or.inr rfl
  · cases hdr with
    | ok r now => exact Or.inl rfl
    | error msg => exact Or.inr rfl
  · cases loc with
    | ok resources lt p now => exact Or.inl rfl
    | importError => exact Or.inr rfl
    | error msg => exact Or.inr rfl
  · have hcomb := combined12_analysis_source
      (performanceAnalyzerExtract url ps) (headerAnalyzerExtract url hdr)
    unfold analyzePerformance
    dsimp only
    split
    · rw [pyGet_fillMissing_of_not_none _ _ _ (by rw [hcomb]; rfl), hcomb]
    · rw [hcomb]

end SeoAgno
